import Mathlib

/-!
Shallow embedding of the dispatch core of `lib/telegraf.js`: event
normalization (`extractUpdate`), generator-based middleware composition
(`Telegraf.compose`), update dispatch (`handleUpdate`), the answer-via-webhook
request path (`sendRequest`), the polling loop's failure policy
(`pollingLoop`), and the webhook endpoint's body-parse error path
(`webHookCallback`'s end listener).
-/

namespace Telegraf

/-- JSON-like values, as produced by parsing an inbound Telegram update.
Numbers are modelled as integers (the fields the dispatch core reads,
such as `update_id`, are integers). -/
inductive JSVal where
  | null
  | bool (b : Bool)
  | num (n : Int)
  | str (s : String)
  | arr (elems : List JSVal)
  | obj (fields : List (String × JSVal))

/-- JavaScript truthiness of a value: `null`, `false`, `0` and the empty
string are falsy; arrays and objects are always truthy. -/
def JSVal.truthy : JSVal → Bool
  | .null => false
  | .bool b => b
  | .num n => n != 0
  | .str s => s != ""
  | .arr _ => true
  | .obj _ => true

/-- Property lookup on an object's field list; with duplicate keys the last
binding wins, matching the result of `JSON.parse`. -/
def jsGetList : List (String × JSVal) → String → Option JSVal
  | [], _ => none
  | kv :: rest, key =>
    match jsGetList rest key with
    | some v => some v
    | none => if kv.1 = key then some kv.2 else none

/-- `v[key]` as read by the dispatch core: a missing key, or indexing a
non-object, yields `none` (JavaScript `undefined`). -/
def JSVal.get : JSVal → String → Option JSVal
  | .obj fields, key => jsGetList fields key
  | _, _ => none

/-- Truthiness of a possibly-absent value (`undefined` is falsy). -/
def truthyOpt : Option JSVal → Bool
  | none => false
  | some v => v.truthy

/-- The record built by `extractUpdate`: starts empty, fields are filled in
while scanning the catalogs. -/
structure ExtractResult where
  type : Option String := none
  subType : Option String := none
  payload : Option JSVal := none

/-- One step of the `constants.updateTypes.forEach` scan in `extractUpdate`
(telegraf.js:808-813): a truthy `update[key]` overwrites `payload` and
`type`. -/
def scanStep (update : JSVal) (r : ExtractResult) (key : String) : ExtractResult :=
  if truthyOpt (update.get key) then
    { r with payload := update.get key, type := some key }
  else r

/-- One step of the `constants.messageSubTypes.forEach` scan
(telegraf.js:815-819): a truthy `update.message[messageType]` overwrites
`subType`. -/
def subScanStep (msg : JSVal) (r : ExtractResult) (key : String) : ExtractResult :=
  if truthyOpt (msg.get key) then { r with subType := some key } else r

/-- `telegraf.extractUpdate` (telegraf.js:806-822), parametric in the two
catalogs supplied by the `constants` module: scan the update-kind catalog
(later truthy keys overwrite earlier ones), then, when `update.message` is
truthy, scan the message-subtype catalog the same way. -/
def extractUpdate (updateTypes messageSubTypes : List String) (update : JSVal) :
    ExtractResult :=
  let r := updateTypes.foldl (scanStep update) {}
  match update.get "message" with
  | some m => if m.truthy then messageSubTypes.foldl (subScanStep m) r else r
  | none => r

/-- Outcome of running a middleware stage on a state: normal completion or an
uncaught exception carrying the state reached so far. -/
inductive RunResult (σ ε : Type) where
  | ok (s : σ)
  | err (e : ε) (s : σ)

/-- A continuation (a generator in the source): consumes the current state
and either completes or raises. -/
abbrev Cont (σ ε : Type) := σ → RunResult σ ε

/-- A middleware handler: receives its continuation (`next`) and yields a
continuation, mirroring `function * (next) {...}` generators run by co. -/
abbrev Handler (σ ε : Type) := Cont σ ε → Cont σ ε

/-- The terminal `noop` generator (telegraf.js:94): completes immediately
without touching the state. -/
def noop {σ ε : Type} : Cont σ ε := fun s => RunResult.ok s

/-- `Telegraf.compose` (telegraf.js:56-67): when no continuation is supplied
it defaults to `noop`; the `while (i--) next = middleware[i].call(this, next)`
loop wraps handlers from last to first, which is a right fold. -/
def compose {σ ε : Type} (middleware : List (Handler σ ε))
    (next : Option (Cont σ ε)) : Cont σ ε :=
  middleware.foldr (fun m k => m k) (next.getD noop)

/-- A handler that records entry, invokes its continuation once, then records
exit; an exception from the continuation propagates (code after `yield next`
does not run). -/
def traceHandler {ε : Type} (name : String) : Handler (List String) ε :=
  fun next s =>
    match next (s ++ [name ++ "-enter"]) with
    | .ok s' => RunResult.ok (s' ++ [name ++ "-exit"])
    | .err e s' => RunResult.err e s'

/-- A handler that records entry and exit but never invokes its
continuation (short-circuit). -/
def shortCircuitHandler {ε : Type} (name : String) : Handler (List String) ε :=
  fun _ s => RunResult.ok (s ++ [name ++ "-enter", name ++ "-exit"])

/-- A handler that raises `e` without invoking its continuation. -/
def throwHandler {σ ε : Type} (e : ε) : Handler σ ε :=
  fun _ s => RunResult.err e s

/-- Reads `rawUpdate.update_id` as an integer; `none` models a missing or
non-numeric field (whose JavaScript `+ 1` would be `NaN`). -/
def jsUpdateId (raw : JSVal) : Option Int :=
  match raw.get "update_id" with
  | some (.num n) => some n
  | _ => none

/-- Outcome of `telegraf.handleUpdate` for one raw update: the synchronous
`Undefined update type` throw, a rejection escaping the middleware run (the
default error listener rethrows), or success carrying the final middleware
state and the new offset value `rawUpdate.update_id + 1`. -/
inductive DispatchOutcome (σ ε : Type) where
  | undefinedType
  | failed (e : ε) (s : σ)
  | ok (s : σ) (newOffset : Option Int)

/-- `telegraf.handleUpdate` (telegraf.js:832-888) restricted to the control
flow the claims are about: extract the update; when `update.type` is falsy
(absent, or the empty string) throw `Undefined update type` before building
any context or running any middleware; otherwise run the composed registered
middleware from a fresh per-event state and, on success only, report the new
offset `rawUpdate.update_id + 1`. -/
def handleUpdate {σ ε : Type} (updateTypes messageSubTypes : List String)
    (middleware : List (Handler σ ε)) (s₀ : σ) (raw : JSVal) :
    DispatchOutcome σ ε :=
  match (extractUpdate updateTypes messageSubTypes raw).type with
  | none => .undefinedType
  | some t =>
    if t = "" then .undefinedType
    else
      match compose middleware none s₀ with
      | .ok s => .ok s ((jsUpdateId raw).map (fun n => n + 1))
      | .err e s => .failed e s

/-- The mutable polling state `this.polling` (telegraf.js:25-28): `offset`
is `none` when the JavaScript value would be `NaN`. -/
structure PollSt where
  offset : Option Int
  started : Bool

/-- The dispatch phase of one polling iteration
(`updates.map((update) => this.handleUpdate(update))`, telegraf.js:790):
handle each update of the batch with a fresh per-event state, assigning
`this.polling.offset = rawUpdate.update_id + 1` after each success
(telegraf.js:887); a throw or rejection aborts the phase, returning the
state reached so far on the error side. -/
def dispatchBatch {σ ε : Type} (updateTypes messageSubTypes : List String)
    (middleware : List (Handler σ ε)) (s₀ : σ) :
    List JSVal → PollSt → Except PollSt PollSt
  | [], st => .ok st
  | raw :: rest, st =>
    match handleUpdate updateTypes messageSubTypes middleware s₀ raw with
    | .undefinedType => .error st
    | .failed _ _ => .error st
    | .ok _ off =>
      dispatchBatch updateTypes messageSubTypes middleware s₀ rest
        { st with offset := off }

/-- Result of one `telegraf.pollingLoop` iteration: the early return when
`started` is false, a scheduled next iteration (with `backoff` true when the
fetch failed and the 1-second retry timer ran), or the terminal outer-catch
path that sets `started` to false and schedules nothing. -/
inductive IterResult where
  | notStarted
  | next (st : PollSt) (backoff : Bool)
  | fatal (st : PollSt)

/-- One iteration of `telegraf.pollingLoop` (telegraf.js:778-797): return at
once when `started` is false; a fetch failure is recovered by the first
`catch` (backoff, empty batch, state untouched) and the loop re-enters; a
dispatch-phase failure skips to the final `catch`, which sets
`started = false` and does not call `pollingLoop` again. -/
def pollingIteration {σ ε : Type} (updateTypes messageSubTypes : List String)
    (middleware : List (Handler σ ε)) (s₀ : σ)
    (fetch : Except Unit (List JSVal)) (st : PollSt) : IterResult :=
  if st.started then
    match fetch with
    | .error _ => .next st true
    | .ok updates =>
      match dispatchBatch updateTypes messageSubTypes middleware s₀ updates st with
      | .ok st' => .next st' false
      | .error st' => .fatal { st' with started := false }
  else .notStarted

/-- Runs the polling loop over a script of fetch results for at most `fuel`
iterations, counting the iterations actually entered: a `fatal` iteration is
counted and nothing runs after it; `notStarted` runs nothing. -/
def pollingSteps {σ ε : Type} (updateTypes messageSubTypes : List String)
    (middleware : List (Handler σ ε)) (s₀ : σ)
    (script : Nat → Except Unit (List JSVal)) :
    Nat → Nat → PollSt → Nat × PollSt
  | 0, _, st => (0, st)
  | fuel + 1, i, st =>
    match pollingIteration updateTypes messageSubTypes middleware s₀ (script i) st with
    | .notStarted => (0, st)
    | .next st' _ =>
      let t := pollingSteps updateTypes messageSubTypes middleware s₀ script fuel (i + 1) st'
      (t.1 + 1, t.2)
    | .fatal st' => (1, st')

/-- The webhook response sink: `finished` mirrors `response.finished`, set
once `response.end` has run. -/
structure RespState where
  finished : Bool

/-- JavaScript property assignment `options.method = method`: overwrite an
existing binding in place, else append a new one. -/
def jsSet (fields : List (String × JSVal)) (key : String) (v : JSVal) :
    List (String × JSVal) :=
  if (jsGetList fields key).isSome then
    fields.map (fun kv => if kv.1 = key then (key, v) else kv)
  else fields ++ [(key, v)]

/-- The binary-attachment test of `telegraf.sendRequest` (telegraf.js:702):
some parameter is truthy and has a truthy `source` property. -/
def isFileRequest (options : List (String × JSVal)) : Bool :=
  options.any (fun kv => kv.2.truthy && truthyOpt (kv.2.get "source"))

/-- How `telegraf.sendRequest` answered: by writing a JSON body into the
still-open webhook response, by a normal remote invocation (multipart when a
binary attachment is present), or by the missing-token throw. -/
inductive SendPath where
  | webhook (body : List (String × JSVal))
  | network (body : List (String × JSVal)) (multipart : Bool)
  | tokenError

/-- `telegraf.sendRequest` (telegraf.js:700-730): when a response sink is
bound, still open, and the call carries no binary attachment, inject
`method` into the parameter map, end the response with that JSON body and
skip the network entirely; otherwise (after the token check) issue a normal
remote invocation, multipart exactly when a binary attachment is present. -/
def sendRequest (hasToken : Bool) (method : String)
    (options : List (String × JSVal)) (resp : Option RespState) :
    SendPath × Option RespState :=
  match resp with
  | some r =>
    if !r.finished && !isFileRequest options then
      (.webhook (jsSet options "method" (.str method)), some ⟨true⟩)
    else if !hasToken then (.tokenError, some r)
    else (.network options (isFileRequest options), some r)
  | none =>
    if !hasToken then (.tokenError, none)
    else (.network options (isFileRequest options), none)

/-- A sequence of remote calls issued through the webhook-bound proxy of
`telegraf.handleUpdate` (telegraf.js:847-854) during one event's dispatch,
threading the shared response sink through `sendRequest`. -/
def runCalls (hasToken : Bool) :
    List (String × List (String × JSVal)) → RespState →
    List SendPath × RespState
  | [], r => ([], r)
  | (m, opts) :: rest, r =>
    match sendRequest hasToken m opts (some r) with
    | (p, r') =>
      let t := runCalls hasToken rest (r'.getD r)
      (p :: t.1, t.2)

/-- Whether a call was answered through the webhook response sink. -/
def isWebhookPath : SendPath → Bool
  | .webhook _ => true
  | _ => false

/-- What `telegraf.handleUpdate` does when invoked from the webhook end
listener, abstracted to the three ways its promise can settle plus the
synchronous `Undefined update type` throw. -/
inductive DispatchP where
  | syncThrow
  | resolvesOpen
  | resolvesFinished
  | rejects

/-- Observable outcome of the webhook end listener for one request:
`status` is the argument of the `writeHead` call if one ran, `ended` whether
this listener ended the response, `errorHandlerCalls` how many times
`this.onError` was invoked, `dispatched` whether `handleUpdate` was called,
and `uncaught` whether an exception escaped the listener. -/
structure WebhookOutcome where
  status : Option Nat
  ended : Bool
  errorHandlerCalls : Nat
  dispatched : Bool
  uncaught : Bool

/-- The `req.on('end', ...)` listener of `telegraf.webHookCallback`
(telegraf.js:148-168). `parsed` is the result of `JSON.parse(body)` (`none`
when the body is unparsable and the parse throws); `onErrorThrows` is
whether the configured error handler rethrows (the default handler,
telegraf.js:102-108, ends in `throw err`). On a parse failure the catch
block calls `this.onError(error)` first; only if that call returns does
`res.writeHead(415); res.end()` run. On a parse success `handleUpdate` is
called and its promise settles the response: 200 when it resolves with the
response still open, nothing when the hijack path already finished it, 500
when it rejects; a synchronous throw lands in the same catch block as a
parse failure. -/
def webhookOnEnd (onErrorThrows : Bool) (parsed : Option JSVal)
    (dispatch : JSVal → DispatchP) : WebhookOutcome :=
  match parsed with
  | none =>
    if onErrorThrows then ⟨none, false, 1, false, true⟩
    else ⟨some 415, true, 1, false, false⟩
  | some u =>
    match dispatch u with
    | .syncThrow =>
      if onErrorThrows then ⟨none, false, 1, true, true⟩
      else ⟨some 415, true, 1, true, false⟩
    | .resolvesOpen => ⟨some 200, true, 0, true, false⟩
    | .resolvesFinished => ⟨none, true, 0, true, false⟩
    | .rejects => ⟨some 500, true, 0, true, false⟩

/-- Modelled from the spec: the ordered update-kind catalog
(`constants.updateTypes`). The `constants` module the source requires is not
among the source files; this list follows the spec's enumeration of inbound
top-level fields. Every claim theorem is parametric in the catalogs; this
list only instantiates witnesses. -/
def specUpdateTypes : List String :=
  ["message", "edited_message", "channel_post", "callback_query",
   "inline_query", "chosen_inline_result", "shipping_query",
   "pre_checkout_query"]

/-- Modelled from the spec: the ordered message-subtype catalog
(`constants.messageSubTypes`), following the subtypes the spec names
(text plus photo, location, sticker). Used only to instantiate witnesses. -/
def specMessageSubTypes : List String :=
  ["text", "photo", "location", "sticker"]

/-- A concrete message payload with two truthy subtype keys. -/
def rawTwoKindsMsg : JSVal :=
  .obj [("text", .str "hi"), ("photo", .arr [.obj [("file_id", .str "f")]])]

/-- A concrete raw event with two recognized top-level keys (`message` and,
later in the catalog, `callback_query`). -/
def rawTwoKinds : JSVal :=
  .obj [("update_id", .num 7), ("message", rawTwoKindsMsg),
        ("callback_query", .obj [("id", .str "1")])]

/-- A concrete raw event with a single recognized key and `update_id = 41`. -/
def raw41 : JSVal :=
  .obj [("message", .obj [("text", .str "hi")]), ("update_id", .num 41)]

/-- Unfolding `compose` on a nonempty chain: the head handler wraps the
composition of the tail. -/
theorem compose_cons {σ ε : Type} (m : Handler σ ε) (ms : List (Handler σ ε))
    (next : Option (Cont σ ε)) : compose (m :: ms) next = m (compose ms next) := rfl

/-- The update-kind scan leaves the accumulator unchanged over a stretch of
keys none of which is truthy in the raw event. -/
theorem scan_no_match {raw : JSVal} {l : List String} (r : ExtractResult)
    (h : ∀ k ∈ l, truthyOpt (raw.get k) = false) :
    l.foldl (scanStep raw) r = r := by
  induction l generalizing r with
  | nil => rfl
  | cons k ks ih =>
    have hk : truthyOpt (raw.get k) = false := h k (List.mem_cons_self k ks)
    simp only [List.foldl_cons, scanStep, hk, Bool.false_eq_true, if_false]
    exact ih r (fun k' hm => h k' (List.mem_cons_of_mem _ hm))

/-- The subtype scan leaves the accumulator unchanged over a stretch of keys
none of which is truthy in the message payload. -/
theorem subScan_no_match {msg : JSVal} {l : List String} (r : ExtractResult)
    (h : ∀ k ∈ l, truthyOpt (msg.get k) = false) :
    l.foldl (subScanStep msg) r = r := by
  induction l generalizing r with
  | nil => rfl
  | cons k ks ih =>
    have hk : truthyOpt (msg.get k) = false := h k (List.mem_cons_self k ks)
    simp only [List.foldl_cons, subScanStep, hk, Bool.false_eq_true, if_false]
    exact ih r (fun k' hm => h k' (List.mem_cons_of_mem _ hm))

/-- The subtype scan never touches `type` or `payload`. -/
theorem subScan_preserves (msg : JSVal) (l : List String) (r : ExtractResult) :
    (l.foldl (subScanStep msg) r).type = r.type ∧
    (l.foldl (subScanStep msg) r).payload = r.payload := by
  induction l generalizing r with
  | nil => exact ⟨rfl, rfl⟩
  | cons k ks ih =>
    have hstep : (subScanStep msg r k).type = r.type ∧
        (subScanStep msg r k).payload = r.payload := by
      unfold subScanStep; split <;> exact ⟨rfl, rfl⟩
    simp only [List.foldl_cons]
    exact ⟨(ih (subScanStep msg r k)).1.trans hstep.1,
      (ih (subScanStep msg r k)).2.trans hstep.2⟩

/-- The update-kind scan never touches `subType`. -/
theorem scan_preserves_subType (raw : JSVal) (l : List String) (r : ExtractResult) :
    (l.foldl (scanStep raw) r).subType = r.subType := by
  induction l generalizing r with
  | nil => rfl
  | cons k ks ih =>
    have hstep : (scanStep raw r k).subType = r.subType := by
      unfold scanStep; split <;> rfl
    simp only [List.foldl_cons]
    exact (ih (scanStep raw r k)).trans hstep

/-- The `type` and `payload` produced by `extractUpdate` are those of the
update-kind scan alone. -/
theorem extractUpdate_type_payload (uts msts : List String) (raw : JSVal) :
    (extractUpdate uts msts raw).type = (uts.foldl (scanStep raw) {}).type ∧
    (extractUpdate uts msts raw).payload = (uts.foldl (scanStep raw) {}).payload := by
  simp only [extractUpdate]
  split
  · split
    · exact subScan_preserves _ _ _
    · exact ⟨rfl, rfl⟩
  · exact ⟨rfl, rfl⟩

/-- When no recognized update-kind key is truthy, `extractUpdate` leaves
`type` unset, so `handleUpdate` throws `Undefined update type` without
running any middleware (the conclusion does not depend on the middleware or
its initial state). -/
theorem handleUpdate_no_truthy_key {σ ε : Type} (uts msts : List String)
    (middleware : List (Handler σ ε)) (s₀ : σ) (raw : JSVal)
    (h : ∀ k ∈ uts, truthyOpt (raw.get k) = false) :
    handleUpdate uts msts middleware s₀ raw = DispatchOutcome.undefinedType := by
  have htype : (extractUpdate uts msts raw).type = none := by
    have := (extractUpdate_type_payload uts msts raw).1
    rw [this, scan_no_match _ h]
  unfold handleUpdate
  rw [htype]

/-- Every lookup in a one-field object whose value is falsy is falsy,
whichever key is asked for. -/
theorem singleton_get_falsy {v : JSVal} (hv : v.truthy = false) (k key : String) :
    truthyOpt ((JSVal.obj [(k, v)]).get key) = false := by
  simp only [JSVal.get, jsGetList]
  by_cases h : k = key
  · simp [h, truthyOpt, hv]
  · simp [h, truthyOpt]

/-- Claim C3: composing the chain `[a, b, c]` of handlers that each record
entry, invoke their continuation once, and record exit, and running the
composed handler with the default continuation, produces the onion trace
`a-enter, b-enter, c-enter, c-exit, b-exit, a-exit`: handlers enter in
registration order and exit in reverse order. -/
theorem compose_onion_order (ε : Type) (a b c : String) :
    compose [traceHandler (ε := ε) a, traceHandler b, traceHandler c] none [] =
      RunResult.ok [a ++ "-enter", b ++ "-enter", c ++ "-enter",
        c ++ "-exit", b ++ "-exit", a ++ "-exit"] := rfl

/-- Claim C3 witness: the onion trace at the concrete chain `[a, b, c]`. -/
theorem compose_onion_order_witness :
    compose [traceHandler (ε := Unit) "a", traceHandler "b", traceHandler "c"]
      none [] =
      RunResult.ok ["a-enter", "b-enter", "c-enter", "c-exit", "b-exit",
        "a-exit"] :=
  compose_onion_order Unit "a" "b" "c"

/-- Claim C6: if a handler throws, the composed run rejects with that exact
error, and no stage scheduled after the throw point executes: whatever
handlers follow the throwing one, the run's result is the error `e` itself
with a trace holding only the entries of the stages before the throw (no
exits ran either, since the exception propagates through each wrapper). -/
theorem compose_error_propagation (ε : Type) (pre : List String) (e : ε)
    (rest : List (Handler (List String) ε)) (s : List String) :
    compose (pre.map traceHandler ++ throwHandler e :: rest) none s =
      RunResult.err e (s ++ pre.map (fun n => n ++ "-enter")) := by
  induction pre generalizing s with
  | nil => simp [compose, throwHandler]
  | cons p ps ih =>
    have h1 : compose ((p :: ps).map traceHandler ++ throwHandler e :: rest) none s
        = traceHandler p (compose (ps.map traceHandler ++ throwHandler e :: rest) none) s := rfl
    rw [h1]
    simp only [traceHandler]
    rw [ih (s ++ [p ++ "-enter"])]
    simp [List.append_assoc]

/-- Claim C6 witness: a throw in the middle of `[a, throw, c]` rejects with
the thrown error and only `a-enter` is in the trace. -/
theorem compose_error_propagation_witness :
    compose [traceHandler "a", throwHandler "boom", traceHandler "c"] none [] =
      RunResult.err "boom" ["a-enter"] :=
  compose_error_propagation String ["a"] "boom" [traceHandler "c"] []

/-- Claim C9: when handler `b` never invokes its continuation, the third
stage (an arbitrary handler `h`, hence in particular `c`) never runs, the
composed run completes without error, and the trace is
`a-enter, b-enter, b-exit, a-exit`; composing the empty chain with the
default continuation is the no-op continuation. -/
theorem compose_short_circuit (ε : Type) (a b : String)
    (h : Handler (List String) ε) :
    (∀ s : List String,
      compose ([] : List (Handler (List String) ε)) none s = RunResult.ok s) ∧
    compose [traceHandler a, shortCircuitHandler b, h] none [] =
      RunResult.ok [a ++ "-enter", b ++ "-enter", b ++ "-exit", a ++ "-exit"] :=
  ⟨fun _ => rfl, rfl⟩

/-- Claim C9 witness: the short-circuit trace at the concrete chain
`[a, b, c]`, plus the empty composition acting as a no-op on a concrete
state. -/
theorem compose_short_circuit_witness :
    (compose ([] : List (Handler (List String) Unit)) none ["x"] =
      RunResult.ok ["x"]) ∧
    compose [traceHandler (ε := Unit) "a", shortCircuitHandler "b",
      traceHandler "c"] none [] =
      RunResult.ok ["a-enter", "b-enter", "b-exit", "a-exit"] :=
  ⟨(compose_short_circuit Unit "a" "b" (traceHandler "c")).1 ["x"],
    (compose_short_circuit Unit "a" "b" (traceHandler "c")).2⟩

/-- Claim C1: the scans are last-match-wins. First part: whenever `k` is a
truthy key of the raw event and no catalog entry after `k` is truthy, the
normalized `type` and `payload` come from `k`, whatever truthy entries
precede it. Second part: under the same policy, when the raw event has a
`message` payload, the resolved `subType` is the last matching entry of the
message-subtype catalog. -/
theorem extract_last_match :
    (∀ (raw : JSVal) (msts l₁ l₂ : List String) (k : String),
        truthyOpt (raw.get k) = true →
        (∀ k' ∈ l₂, truthyOpt (raw.get k') = false) →
        (extractUpdate (l₁ ++ k :: l₂) msts raw).type = some k ∧
        (extractUpdate (l₁ ++ k :: l₂) msts raw).payload = raw.get k) ∧
    (∀ (raw msg : JSVal) (uts m₁ m₂ : List String) (j : String),
        raw.get "message" = some msg → msg.truthy = true →
        truthyOpt (msg.get j) = true →
        (∀ j' ∈ m₂, truthyOpt (msg.get j') = false) →
        (extractUpdate uts (m₁ ++ j :: m₂) raw).subType = some j) := by
  constructor
  · intro raw msts l₁ l₂ k hk hl₂
    have hscan : (l₁ ++ k :: l₂).foldl (scanStep raw) {} =
        { l₁.foldl (scanStep raw) {} with payload := raw.get k, type := some k } := by
      rw [List.foldl_append, List.foldl_cons, scan_no_match _ hl₂]
      simp [scanStep, hk]
    obtain ⟨h1, h2⟩ := extractUpdate_type_payload (l₁ ++ k :: l₂) msts raw
    rw [h1, h2, hscan]
    exact ⟨rfl, rfl⟩
  · intro raw msg uts m₁ m₂ j hmsg hmt hj hm₂
    have hsub : ∀ r : ExtractResult,
        ((m₁ ++ j :: m₂).foldl (subScanStep msg) r).subType = some j := by
      intro r
      rw [List.foldl_append, List.foldl_cons, subScan_no_match _ hm₂]
      simp [subScanStep, hj]
    simp only [extractUpdate, hmsg, hmt, if_true]
    exact hsub _

/-- Claim C1 witness: in a raw event carrying both `message` and
`callback_query`, the later catalog entry `callback_query` determines
`type` and `payload`, and the message subtype is the later match `photo`
(both `text` and `photo` are truthy). -/
theorem extract_last_match_witness :
    (extractUpdate specUpdateTypes specMessageSubTypes rawTwoKinds).type =
      some "callback_query" ∧
    (extractUpdate specUpdateTypes specMessageSubTypes rawTwoKinds).payload =
      rawTwoKinds.get "callback_query" ∧
    (extractUpdate specUpdateTypes specMessageSubTypes rawTwoKinds).subType =
      some "photo" := by
  have h1 := extract_last_match.1 rawTwoKinds specMessageSubTypes
    ["message", "edited_message", "channel_post"]
    ["inline_query", "chosen_inline_result", "shipping_query", "pre_checkout_query"]
    "callback_query" (by decide) (by decide)
  have h2 := extract_last_match.2 rawTwoKinds rawTwoKindsMsg specUpdateTypes
    ["text"] ["location", "sticker"] "photo" rfl rfl (by decide) (by decide)
  exact ⟨h1.1, h1.2, h2⟩

/-- Claim C8: when none of the recognized update-kind keys is truthy in the
raw event, dispatch fails with the `Undefined update type` error; the
conclusion holds for every middleware chain and initial state, so no context
is built and no middleware runs. -/
theorem dispatch_undefined_event_type {σ ε : Type} (uts msts : List String)
    (middleware : List (Handler σ ε)) (s₀ : σ) (raw : JSVal)
    (h : ∀ k ∈ uts, truthyOpt (raw.get k) = false) :
    handleUpdate uts msts middleware s₀ raw = DispatchOutcome.undefinedType :=
  handleUpdate_no_truthy_key uts msts middleware s₀ raw h

/-- Claim C8 witness: a raw event with only an `update_id` field fails with
the undefined-event-type error. -/
theorem dispatch_undefined_event_type_witness :
    handleUpdate specUpdateTypes specMessageSubTypes
      ([] : List (Handler Unit Unit)) ()
      (JSVal.obj [("update_id", JSVal.num 1)]) = DispatchOutcome.undefinedType :=
  dispatch_undefined_event_type _ _ _ _ _ (by decide)

/-- Claim C10: presence is decided by truthiness. First part: a raw event
whose only recognized key maps to a falsy value is dispatched as if the key
were absent — `handleUpdate` fails with the undefined-event-type error for
every catalog and middleware chain. Second part: the same truthiness test
governs message-subtype detection — a message whose only subtype key maps to
a falsy value yields no `subType`. -/
theorem truthiness_governs_presence {σ ε : Type} :
    (∀ (uts msts : List String) (middleware : List (Handler σ ε)) (s₀ : σ)
        (k : String) (v : JSVal), v.truthy = false →
        handleUpdate uts msts middleware s₀ (JSVal.obj [(k, v)]) =
          DispatchOutcome.undefinedType) ∧
    (∀ (uts msts : List String) (j : String) (v : JSVal), v.truthy = false →
        (extractUpdate uts msts
          (JSVal.obj [("message", JSVal.obj [(j, v)])])).subType = none) := by
  constructor
  · intro uts msts middleware s₀ k v hv
    exact handleUpdate_no_truthy_key uts msts middleware s₀ _
      (fun k' _ => singleton_get_falsy hv k k')
  · intro uts msts j v hv
    have hmsg : (JSVal.obj [("message", JSVal.obj [(j, v)])]).get "message" =
        some (JSVal.obj [(j, v)]) := by
      simp [JSVal.get, jsGetList]
    simp only [extractUpdate, hmsg, JSVal.truthy, if_true]
    rw [subScan_no_match _ (fun j' _ => singleton_get_falsy hv j j'),
      scan_preserves_subType]

/-- Claim C10 witness: each falsy shape (`0`, the empty string, `false`,
`null`) under a recognized key is treated as absent, and a falsy subtype
value yields no subtype. -/
theorem truthiness_governs_presence_witness :
    handleUpdate specUpdateTypes specMessageSubTypes
      ([] : List (Handler Unit Unit)) ()
      (JSVal.obj [("message", JSVal.num 0)]) = DispatchOutcome.undefinedType ∧
    handleUpdate specUpdateTypes specMessageSubTypes
      ([] : List (Handler Unit Unit)) ()
      (JSVal.obj [("callback_query", JSVal.str "")]) =
        DispatchOutcome.undefinedType ∧
    handleUpdate specUpdateTypes specMessageSubTypes
      ([] : List (Handler Unit Unit)) ()
      (JSVal.obj [("message", JSVal.bool false)]) =
        DispatchOutcome.undefinedType ∧
    handleUpdate specUpdateTypes specMessageSubTypes
      ([] : List (Handler Unit Unit)) ()
      (JSVal.obj [("inline_query", JSVal.null)]) =
        DispatchOutcome.undefinedType ∧
    (extractUpdate specUpdateTypes specMessageSubTypes
      (JSVal.obj [("message", JSVal.obj [("photo", JSVal.num 0)])])).subType =
        none :=
  ⟨truthiness_governs_presence.1 _ _ _ () "message" _ rfl,
    truthiness_governs_presence.1 _ _ _ () "callback_query" _ rfl,
    truthiness_governs_presence.1 _ _ _ () "message" _ rfl,
    truthiness_governs_presence.1 _ _ _ () "inline_query" _ rfl,
    (truthiness_governs_presence (σ := Unit) (ε := Unit)).2 _ _ "photo" _ rfl⟩

/-- A successful `handleUpdate` reports the offset `rawUpdate.update_id + 1`. -/
theorem handleUpdate_ok_offset {σ ε : Type} {uts msts : List String}
    {middleware : List (Handler σ ε)} {s₀ : σ} {raw : JSVal} {s : σ}
    {off : Option Int}
    (h : handleUpdate uts msts middleware s₀ raw = DispatchOutcome.ok s off) :
    off = (jsUpdateId raw).map (fun n => n + 1) := by
  unfold handleUpdate at h
  split at h
  · exact DispatchOutcome.noConfusion h
  · split at h
    · exact DispatchOutcome.noConfusion h
    · split at h
      · cases h; rfl
      · exact DispatchOutcome.noConfusion h

/-- Claim C4: when the dispatch of a raw update with integer `update_id`
completes successfully, the polling offset afterwards is `update_id + 1`. -/
theorem offset_advances_on_success {σ ε : Type} (uts msts : List String)
    (middleware : List (Handler σ ε)) (s₀ : σ) (raw : JSVal) (uid : Int)
    (st st' : PollSt)
    (hid : raw.get "update_id" = some (JSVal.num uid))
    (hrun : dispatchBatch uts msts middleware s₀ [raw] st = Except.ok st') :
    st'.offset = some (uid + 1) := by
  unfold dispatchBatch at hrun
  cases hh : handleUpdate uts msts middleware s₀ raw with
  | undefinedType => rw [hh] at hrun; exact Except.noConfusion hrun
  | failed e s => rw [hh] at hrun; exact Except.noConfusion hrun
  | ok s off =>
    rw [hh] at hrun
    unfold dispatchBatch at hrun
    cases hrun
    have hoff := handleUpdate_ok_offset hh
    simp [hoff, jsUpdateId, hid]

/-- Claim C4 witness: dispatching `raw41` (whose `update_id` is 41) from
offset 0 succeeds and leaves the offset at 42. -/
theorem offset_advances_on_success_witness :
    (PollSt.mk (some 42) true).offset = some 42 :=
  offset_advances_on_success specUpdateTypes specMessageSubTypes
    ([] : List (Handler Unit Unit)) () raw41 41 ⟨some 0, true⟩ ⟨some 42, true⟩
    rfl rfl

/-- Claim C7: the polling loop's failure policy. A fetch failure is
recovered: the loop backs off and re-enters with the state untouched (in
particular `started` stays true). A dispatch-phase failure is fatal: the
iteration ends on the outer-catch path with `started` set to false, and —
third part — a fatal iteration is the last one the loop runs, however much
fuel remains. -/
theorem polling_failure_policy {σ ε : Type} (uts msts : List String)
    (middleware : List (Handler σ ε)) (s₀ : σ) :
    (∀ st : PollSt, st.started = true →
        pollingIteration uts msts middleware s₀ (Except.error ()) st =
          IterResult.next st true) ∧
    (∀ (updates : List JSVal) (st st' : PollSt), st.started = true →
        dispatchBatch uts msts middleware s₀ updates st = Except.error st' →
        pollingIteration uts msts middleware s₀ (Except.ok updates) st =
          IterResult.fatal { st' with started := false }) ∧
    (∀ (script : Nat → Except Unit (List JSVal)) (fuel i : Nat)
        (st st' : PollSt),
        pollingIteration uts msts middleware s₀ (script i) st =
          IterResult.fatal st' →
        pollingSteps uts msts middleware s₀ script (fuel + 1) i st =
          (1, st')) := by
  refine ⟨?_, ?_, ?_⟩
  · intro st hst
    simp [pollingIteration, hst]
  · intro updates st st' hst hfail
    simp [pollingIteration, hst, hfail]
  · intro script fuel i st st' hfat
    simp [pollingSteps, hfat]

/-- Claim C7 witness: a concrete fetch failure re-enters the loop with the
state untouched; a concrete dispatch failure (an update with no recognized
key) is fatal, flips `started` off, and the loop with plenty of fuel runs
exactly that one iteration. -/
theorem polling_failure_policy_witness :
    pollingIteration specUpdateTypes specMessageSubTypes
      ([] : List (Handler Unit Unit)) () (Except.error ()) ⟨some 0, true⟩ =
      IterResult.next ⟨some 0, true⟩ true ∧
    pollingIteration specUpdateTypes specMessageSubTypes
      ([] : List (Handler Unit Unit)) () (Except.ok [JSVal.obj []])
      ⟨some 0, true⟩ = IterResult.fatal ⟨some 0, false⟩ ∧
    pollingSteps specUpdateTypes specMessageSubTypes
      ([] : List (Handler Unit Unit)) () (fun _ => Except.ok [JSVal.obj []])
      6 0 ⟨some 0, true⟩ = (1, ⟨some 0, false⟩) :=
  ⟨(polling_failure_policy _ _ _ ()).1 ⟨some 0, true⟩ rfl,
    (polling_failure_policy _ _ _ ()).2.1 [JSVal.obj []] ⟨some 0, true⟩
      ⟨some 0, true⟩ rfl rfl,
    (polling_failure_policy _ _ _ ()).2.2 (fun _ => Except.ok [JSVal.obj []])
      5 0 ⟨some 0, true⟩ ⟨some 0, false⟩ rfl⟩

/-- Once the response sink is finished, no later call of the sequence is
answered through it. -/
theorem runCalls_finished (ht : Bool)
    (calls : List (String × List (String × JSVal))) :
    ((runCalls ht calls ⟨true⟩).1.countP isWebhookPath) = 0 := by
  induction calls with
  | nil => rfl
  | cons c rest ih =>
    obtain ⟨m, opts⟩ := c
    cases ht with
    | true => simp [runCalls, sendRequest, List.countP_cons, isWebhookPath, ih]
    | false => simp [runCalls, sendRequest, List.countP_cons, isWebhookPath, ih]

/-- At most one call of any sequence issued through the webhook-bound proxy
is answered through the response sink. -/
theorem runCalls_webhook_count (ht : Bool)
    (calls : List (String × List (String × JSVal))) (r : RespState) :
    ((runCalls ht calls r).1.countP isWebhookPath) ≤ 1 := by
  induction calls generalizing r with
  | nil => simp [runCalls]
  | cons c rest ih =>
    obtain ⟨m, opts⟩ := c
    obtain ⟨fin⟩ := r
    cases fin with
    | true =>
      rw [runCalls_finished ht ((m, opts) :: rest)]
      exact Nat.zero_le 1
    | false =>
      cases ht with
      | true =>
        by_cases hf : isFileRequest opts
        · simpa [runCalls, sendRequest, hf, List.countP_cons, isWebhookPath]
            using ih ⟨false⟩
        · simp [runCalls, sendRequest, hf, List.countP_cons, isWebhookPath,
            runCalls_finished true rest]
      | false =>
        by_cases hf : isFileRequest opts
        · simpa [runCalls, sendRequest, hf, List.countP_cons, isWebhookPath]
            using ih ⟨false⟩
        · simp [runCalls, sendRequest, hf, List.countP_cons, isWebhookPath,
            runCalls_finished false rest]

/-- Claim C5: behaviour of outbound calls during a webhook-sourced dispatch
with answer-via-webhook enabled. A call with no binary attachment finding
the sink open is answered by ending the response with the parameter map
plus an injected `method` field, without a network invocation, and finishes
the sink. A call carrying a binary attachment, and any call finding the
sink finished, is issued as a normal remote invocation and leaves the sink
as it was. Consequently at most the first qualifying call of any sequence
consumes the sink. -/
theorem webhook_answer_paths :
    (∀ (ht : Bool) (method : String) (options : List (String × JSVal)),
        isFileRequest options = false →
        sendRequest ht method options (some ⟨false⟩) =
          (SendPath.webhook (jsSet options "method" (JSVal.str method)),
            some ⟨true⟩)) ∧
    (∀ (method : String) (options : List (String × JSVal)),
        isFileRequest options = true →
        sendRequest true method options (some ⟨false⟩) =
          (SendPath.network options true, some ⟨false⟩)) ∧
    (∀ (method : String) (options : List (String × JSVal)),
        sendRequest true method options (some ⟨true⟩) =
          (SendPath.network options (isFileRequest options), some ⟨true⟩)) ∧
    (∀ (ht : Bool) (calls : List (String × List (String × JSVal)))
        (r : RespState),
        ((runCalls ht calls r).1.countP isWebhookPath) ≤ 1) := by
  refine ⟨?_, ?_, ?_, ?_⟩
  · intro ht method options hf
    simp [sendRequest, hf]
  · intro method options hf
    simp [sendRequest, hf]
  · intro method options
    simp [sendRequest]
  · intro ht calls r
    exact runCalls_webhook_count ht calls r

/-- Claim C5 witness: a plain `sendMessage` call hijacks the open sink with
the injected `method` field; a `sendPhoto` call with a binary attachment and
a call on a finished sink both go over the network; two consecutive
qualifying calls produce at most one sink answer. -/
theorem webhook_answer_paths_witness :
    sendRequest true "sendMessage"
      [("chat_id", JSVal.num 1), ("text", JSVal.str "hi")] (some ⟨false⟩) =
      (SendPath.webhook [("chat_id", JSVal.num 1), ("text", JSVal.str "hi"),
        ("method", JSVal.str "sendMessage")], some ⟨true⟩) ∧
    sendRequest true "sendPhoto"
      [("photo", JSVal.obj [("source", JSVal.str "cat.png")])]
      (some ⟨false⟩) =
      (SendPath.network [("photo", JSVal.obj [("source", JSVal.str "cat.png")])]
        true, some ⟨false⟩) ∧
    sendRequest true "sendMessage" [("chat_id", JSVal.num 1)] (some ⟨true⟩) =
      (SendPath.network [("chat_id", JSVal.num 1)] false, some ⟨true⟩) ∧
    ((runCalls true [("sendMessage", [("chat_id", JSVal.num 1)]),
        ("sendMessage", [("chat_id", JSVal.num 1)])] ⟨false⟩).1.countP
      isWebhookPath) ≤ 1 :=
  ⟨webhook_answer_paths.1 true "sendMessage" _ rfl,
    webhook_answer_paths.2.1 "sendPhoto" _ rfl,
    webhook_answer_paths.2.2.1 "sendMessage" _,
    webhook_answer_paths.2.2.2 true _ ⟨false⟩⟩

/-- Claim C2 counterexample: with the default error handler — which rethrows
(telegraf.js:107) — an unparsable webhook body makes `this.onError` throw
out of the catch block before `res.writeHead(415)` runs, so the endpoint
does not respond with 415; the handler is still invoked exactly once and
the exception escapes the listener. -/
theorem webhook_unparsable_default_cex :
    (webhookOnEnd true none (fun _ => DispatchP.rejects)).status ≠ some 415 ∧
    (webhookOnEnd true none (fun _ => DispatchP.rejects)).errorHandlerCalls = 1 ∧
    (webhookOnEnd true none (fun _ => DispatchP.rejects)).dispatched = false ∧
    (webhookOnEnd true none (fun _ => DispatchP.rejects)).uncaught = true := by
  refine ⟨?_, rfl, rfl, rfl⟩
  intro h
  exact Option.noConfusion h

/-- Claim C2 as amended: for every webhook POST whose body is not parseable
JSON, the configured error handler is invoked exactly once and no dispatch
occurs; the endpoint responds with HTTP 415 exactly when that handler
returns normally (with the default rethrowing handler no 415 response is
written and the exception escapes the listener instead). -/
theorem webhook_unparsable_amended :
    ∀ (onErrorThrows : Bool) (dispatch : JSVal → DispatchP),
      (webhookOnEnd onErrorThrows none dispatch).errorHandlerCalls = 1 ∧
      (webhookOnEnd onErrorThrows none dispatch).dispatched = false ∧
      ((webhookOnEnd onErrorThrows none dispatch).status = some 415 ↔
        onErrorThrows = false) := by
  intro b d
  cases b <;> simp [webhookOnEnd]

/-- Claim C2 amended witness: with a non-throwing configured handler, the
unparsable-body path yields 415, one handler invocation and no dispatch. -/
theorem webhook_unparsable_amended_witness :
    (webhookOnEnd false none (fun _ => DispatchP.rejects)).errorHandlerCalls = 1 ∧
    (webhookOnEnd false none (fun _ => DispatchP.rejects)).dispatched = false ∧
    ((webhookOnEnd false none (fun _ => DispatchP.rejects)).status = some 415 ↔
      false = false) :=
  webhook_unparsable_amended false (fun _ => DispatchP.rejects)

end Telegraf
